import Mathlib

/-!
Verification development for the ft-geo-viewer geospatial ingestion pipeline.

Shallow embedding of the TypeScript sources:
  * `src/utils/OriginManager.ts` — floating-origin singleton,
  * `src/loaders/FieldTwinLoader.ts` — coordinate normalizer, binary (XVB)
    terrain decoder, shape/well/connection/staged-asset builders, progress
    accounting,
  * `src/loaders/GLTFLoader.ts` — URL-keyed model cache with clone-on-load.

JavaScript `number` values that the claims compare and subtract are modelled
as rationals (`ℚ`); the decoded values of 4-byte little-endian words are
modelled abstractly (an `Int` view and a `ℚ` view of a buffer), since no
claim depends on bit-level float decoding.  Fallible operations return
`Option`; the process-wide origin singleton is threaded as explicit state.
-/

namespace GeoViewer

/-- A 3-vector of rationals, standing in for `THREE.Vector3`. -/
structure Vec3 where
  x : ℚ
  y : ℚ
  z : ℚ
deriving DecidableEq, Repr

/-- The zero vector `new THREE.Vector3(0, 0, 0)`. -/
def Vec3.zero : Vec3 := ⟨0, 0, 0⟩

/-- Componentwise subtraction, standing in for `Vector3.sub`. -/
def Vec3.sub (a b : Vec3) : Vec3 := ⟨a.x - b.x, a.y - b.y, a.z - b.z⟩

/-! ## OriginManager (src/utils/OriginManager.ts)

`OriginManager` holds `origin: THREE.Vector3 | null`.  The singleton's state
is the `Option Vec3`; each operation is a pure function of that state. -/

/-- The origin state: `null` before any origin is set. -/
abbrev OriginState := Option Vec3

/-- `OriginManager.setOrigin`: assigns only when `origin` is still `null`
(first-writer-wins). -/
def setOrigin (s : OriginState) (point : Vec3) : OriginState :=
  match s with
  | none => some point
  | some o => some o

/-- `OriginManager.getOrigin`: the stored origin, or the zero vector before
any origin is set. -/
def getOrigin (s : OriginState) : Vec3 :=
  match s with
  | none => Vec3.zero
  | some o => o

/-- `OriginManager.hasOrigin`: `origin !== null`. -/
def hasOrigin (s : OriginState) : Bool :=
  s.isSome

/-! ## Coordinate normalizer (FieldTwinLoader.normalizeCoordinate) -/

/-- The small positive bias `zBias = 0.1` added to the up component. -/
def zBias : ℚ := 1 / 10

/-- The axis remap performed by `normalizeCoordinate` before origin
subtraction: `raw = new Vector3(x, z + zBias, -y)`
(domain East/North/Elevation to render Right/Up/Back). -/
def remap (x y z : ℚ) : Vec3 := ⟨x, z + zBias, -y⟩

/-- `FieldTwinLoader.normalizeCoordinate(x, y, z)`: builds the remapped
vector, lazily establishes the origin when none is set and
`|x| > 1 && |y| > 1`, then returns the remapped vector minus the
(possibly just-set) origin.  Returns the updated origin state together
with the resulting render-local coordinate. -/
def normalizeCoordinate (s : OriginState) (x y z : ℚ) : OriginState × Vec3 :=
  let raw := remap x y z
  let s' :=
    if ¬ hasOrigin s then
      if 1 < |x| ∧ 1 < |y| then setOrigin s raw else s
    else s
  (s', raw.sub (getOrigin s'))

/-- Runs a sequence of `normalizeCoordinate` calls on `(x, y, z)` triples,
threading the origin state and collecting the returned vectors in call
order. -/
def runNormalize (s : OriginState) : List (ℚ × ℚ × ℚ) → OriginState × List Vec3
  | [] => (s, [])
  | p :: rest =>
    let r := normalizeCoordinate s p.1 p.2.1 p.2.2
    let t := runNormalize r.1 rest
    (t.1, r.2 :: t.2)

/-- An input triple that qualifies to establish the origin:
`|x| > 1 && |y| > 1`. -/
def bigInput (p : ℚ × ℚ × ℚ) : Prop := 1 < |p.1| ∧ 1 < |p.2.1|

instance (p : ℚ × ℚ × ℚ) : Decidable (bigInput p) := by
  unfold bigInput; infer_instance

/-- The remap of an input triple. -/
def remapTriple (p : ℚ × ℚ × ℚ) : Vec3 := remap p.1 p.2.1 p.2.2

lemma normalizeCoordinate_some (o : Vec3) (x y z : ℚ) :
    normalizeCoordinate (some o) x y z = (some o, (remap x y z).sub o) := by
  simp [normalizeCoordinate, hasOrigin, getOrigin]

lemma normalizeCoordinate_none_small (x y z : ℚ)
    (h : ¬ (1 < |x| ∧ 1 < |y|)) :
    normalizeCoordinate none x y z = (none, remap x y z) := by
  simp [normalizeCoordinate, hasOrigin, getOrigin, h, Vec3.sub, Vec3.zero]

lemma normalizeCoordinate_none_big (x y z : ℚ)
    (h : 1 < |x| ∧ 1 < |y|) :
    normalizeCoordinate none x y z = (some (remap x y z), Vec3.zero) := by
  simp [normalizeCoordinate, hasOrigin, setOrigin, getOrigin, h, Vec3.sub,
    Vec3.zero]

lemma runNormalize_small (pre : List (ℚ × ℚ × ℚ))
    (h : ∀ q ∈ pre, ¬ bigInput q) :
    runNormalize none pre = (none, pre.map remapTriple) := by
  induction pre with
  | nil => simp [runNormalize]
  | cons p rest ih =>
    have hp : ¬ (1 < |p.1| ∧ 1 < |p.2.1|) := h p (by simp)
    have hrest : ∀ q ∈ rest, ¬ bigInput q := fun q hq => h q (by simp [hq])
    simp [runNormalize, normalizeCoordinate_none_small p.1 p.2.1 p.2.2 hp,
      ih hrest, remapTriple]

lemma runNormalize_someState (o : Vec3) (l : List (ℚ × ℚ × ℚ)) :
    runNormalize (some o) l =
      (some o, l.map (fun q => (remapTriple q).sub o)) := by
  induction l with
  | nil => simp [runNormalize]
  | cons p rest ih =>
    simp [runNormalize, normalizeCoordinate_some, ih, remapTriple]

/-- C1: starting with no origin set, in any call sequence whose prefix has
no qualifying input and whose next input satisfies `|x| > 1 ∧ |y| > 1`:
the prefix leaves the origin unset and reads of the origin yield the zero
vector (each prefix output is just the remapped input); the qualifying call
establishes the origin as its remapped input and returns the zero vector;
and for every continuation the origin stays at that value — set at most
once, first-writer-wins. -/
theorem normalize_first_big_sets_origin
    (pre : List (ℚ × ℚ × ℚ)) (p : ℚ × ℚ × ℚ) (post : List (ℚ × ℚ × ℚ))
    (hpre : ∀ q ∈ pre, ¬ bigInput q) (hp : bigInput p) :
    (runNormalize none pre).1 = none ∧
    getOrigin none = Vec3.zero ∧
    (runNormalize none pre).2 = pre.map remapTriple ∧
    (runNormalize none (pre ++ p :: post)).2.get? pre.length =
      some Vec3.zero ∧
    (runNormalize none (pre ++ p :: post)).1 = some (remapTriple p) := by
  have hsmall := runNormalize_small pre hpre
  have hbig := normalizeCoordinate_none_big p.1 p.2.1 p.2.2 hp
  have happ :
      runNormalize none (pre ++ p :: post) =
        (some (remapTriple p),
          pre.map remapTriple ++
            Vec3.zero ::
              (post.map (fun q => (remapTriple q).sub (remapTriple p)))) := by
    induction pre with
    | nil =>
      simp only [List.nil_append, runNormalize]
      simp [hbig, remapTriple, runNormalize_someState]
    | cons q rest ih =>
      have hq : ¬ (1 < |q.1| ∧ 1 < |q.2.1|) := hpre q (by simp)
      have hrest : ∀ r ∈ rest, ¬ bigInput r := fun r hr => hpre r (by simp [hr])
      have ih' := ih hrest (runNormalize_small rest hrest)
      simp [runNormalize, normalizeCoordinate_none_small q.1 q.2.1 q.2.2 hq,
        ih', remapTriple]
  refine ⟨by simp [hsmall], rfl, by simp [hsmall], ?_, by simp [happ]⟩
  rw [happ]
  simp only [List.get?_eq_getElem?]
  rw [List.getElem?_append_right (by simp)]
  simp

/-- Witness for C1 at a concrete call sequence. -/
theorem normalize_first_big_sets_origin_witness :
    (∀ q ∈ [((0 : ℚ), (0 : ℚ), (0 : ℚ))], ¬ bigInput q) ∧
    bigInput ((2 : ℚ), (3 : ℚ), (4 : ℚ)) ∧
    ((runNormalize none [((0 : ℚ), 0, 0)]).1 = none ∧
      getOrigin none = Vec3.zero ∧
      (runNormalize none [((0 : ℚ), 0, 0)]).2 =
        [((0 : ℚ), (0 : ℚ), (0 : ℚ))].map remapTriple ∧
      (runNormalize none
          ([((0 : ℚ), 0, 0)] ++ ((2 : ℚ), 3, 4) :: [((9 : ℚ), 9, 9)])).2.get?
          [((0 : ℚ), (0 : ℚ), (0 : ℚ))].length = some Vec3.zero ∧
      (runNormalize none
          ([((0 : ℚ), 0, 0)] ++ ((2 : ℚ), 3, 4) :: [((9 : ℚ), 9, 9)])).1 =
        some (remapTriple ((2 : ℚ), 3, 4))) :=
  ⟨by decide, by decide,
    normalize_first_big_sets_origin [((0 : ℚ), 0, 0)] ((2 : ℚ), 3, 4)
      [((9 : ℚ), 9, 9)] (by decide) (by decide)⟩

/-- C2: once the origin is fixed at `o`, `normalizeCoordinate` returns the
remapped input minus the origin, where the remap is
`(x, y, z) ↦ (x, z + zBias, -y)` with `zBias` a small positive bias; the
origin state is left unchanged, and a second call on the same input
(threading the state returned by the first) yields the identical output. -/
theorem normalize_after_origin_remap_sub
    (o : Vec3) (x y z : ℚ) :
    (normalizeCoordinate (some o) x y z).2 = (remap x y z).sub o ∧
    (normalizeCoordinate (some o) x y z).1 = some o ∧
    normalizeCoordinate (normalizeCoordinate (some o) x y z).1 x y z =
      normalizeCoordinate (some o) x y z ∧
    remap x y z = ⟨x, z + zBias, -y⟩ ∧
    0 < zBias := by
  refine ⟨?_, ?_, ?_, rfl, by norm_num [zBias]⟩
  · simp [normalizeCoordinate_some]
  · simp [normalizeCoordinate_some]
  · simp [normalizeCoordinate_some]

/-! ## Binary terrain decoder (FieldTwinLoader.loadXvbLayer)

A downloaded `ArrayBuffer` is modelled by its byte length together with its
two typed-array views: `intAt i` is `Int32Array(buffer)[i]` and `floatAt i`
is the float value of the 4-byte word at word index `i` (so
`Float32Array(buffer, 8)[j] = floatAt (2 + j)` and
`Float32Array(buffer, 32)[j] = floatAt (8 + j)`), with floats modelled by
their rational values. -/

structure XvbBuffer where
  byteLength : ℕ
  intAt : ℕ → ℤ
  floatAt : ℕ → ℚ

/-- `intData[0]`: the declared grid width. -/
def xvbWidth (buf : XvbBuffer) : ℤ := buf.intAt 0

/-- `intData[1]`: the declared grid height. -/
def xvbHeight (buf : XvbBuffer) : ℤ := buf.intAt 1

/-- `floatData[2]` (byte offset 16): `minZ`, the declared minimum
elevation, used as the masking threshold `minHeight`. -/
def xvbMinZ (buf : XvbBuffer) : ℚ := buf.floatAt 4

/-- `floatData[0]` / `floatData[1]` / `floatData[3]` / `floatData[4]`:
the horizontal bounding box. -/
def xvbMinX (buf : XvbBuffer) : ℚ := buf.floatAt 2

def xvbMinY (buf : XvbBuffer) : ℚ := buf.floatAt 3

def xvbMaxX (buf : XvbBuffer) : ℚ := buf.floatAt 5

def xvbMaxY (buf : XvbBuffer) : ℚ := buf.floatAt 6

/-- `heights.length` for `heights = new Float32Array(buffer, 32)`:
the number of 4-byte height samples after the 32-byte header. -/
def heightsLen (buf : XvbBuffer) : ℕ := (buf.byteLength - 32) / 4

/-- `heights[i]`: in-range reads yield the sample, out-of-range reads yield
JavaScript `undefined` (modelled as `none`). -/
def heightAt (buf : XvbBuffer) (i : ℕ) : Option ℚ :=
  if i < heightsLen buf then some (buf.floatAt (8 + i)) else none

/-- `heights[i] >= minHeight`: a comparison against `undefined` is false. -/
def aboveMin (buf : XvbBuffer) (i : ℕ) : Bool :=
  ((heightAt buf i).map (fun v => decide (xvbMinZ buf ≤ v))).getD false

/-- A height strictly above the declared minimum.  Modelled from the spec's
words "above the minimum" (strict), for comparison with the decoder's
`>=` test `aboveMin`. -/
def specStrictlyAbove (buf : XvbBuffer) (i : ℕ) : Bool :=
  ((heightAt buf i).map (fun v => decide (xvbMinZ buf < v))).getD false

/-- `gridX = Math.floor(width - 1) || 1` (on a validated integral width:
`width - 1`, replaced by 1 when zero). -/
def gridXn (buf : XvbBuffer) : ℕ :=
  let g := (xvbWidth buf).toNat - 1
  if g = 0 then 1 else g

/-- `gridY = Math.floor(height - 1) || 1`. -/
def gridYn (buf : XvbBuffer) : ℕ :=
  let g := (xvbHeight buf).toNat - 1
  if g = 0 then 1 else g

/-- The triangles the index loop emits for the unit quad at `(ix, iy)`:
with `a = ix + gridX1*iy`, `b = ix + gridX1*(iy+1)`,
`c = ix + 1 + gridX1*(iy+1)`, `d = ix + 1 + gridX1*iy`, triangle
`(b, a, d)` when `heights[b] >= minHeight && heights[d] >= minHeight` and
`heights[a] >= minHeight`, and triangle `(c, b, d)` when additionally
`heights[c] >= minHeight`. -/
def quadTris (buf : XvbBuffer) (ix iy : ℕ) : List (ℕ × ℕ × ℕ) :=
  let gridX1 := gridXn buf + 1
  let a := ix + gridX1 * iy
  let b := ix + gridX1 * (iy + 1)
  let c := ix + 1 + gridX1 * (iy + 1)
  let d := ix + 1 + gridX1 * iy
  if aboveMin buf b && aboveMin buf d then
    (if aboveMin buf a then [(b, a, d)] else []) ++
      (if aboveMin buf c then [(c, b, d)] else [])
  else []

/-- The full triangle index list: both loops over `iy < gridY`,
`ix < gridX`, in row-major order. -/
def xvbIndices (buf : XvbBuffer) : List (ℕ × ℕ × ℕ) :=
  (List.range (gridYn buf)).flatMap fun iy =>
    (List.range (gridXn buf)).flatMap fun ix => quadTris buf ix iy

/-- `(n + 3) & ~3` in JavaScript for a buffer length `n` (below 2^31):
`n` rounded up to a multiple of 4. -/
def roundUp4 (n : ℕ) : ℕ := 4 * ((n + 3) / 4)

/-- Which validation check of `loadXvbLayer` rejects a buffer, in source
order: the length guard `byteLength <= 32 || multipleOf4 !== byteLength`
(its two disjuncts evaluated left to right), then the dimension guard
`width <= 0 || height <= 0 || width > 16384 || height > 16384`, then the
sample-count guard `heights.length < width * height`. -/
inductive XvbError where
  | tooShort
  | notMultipleOf4
  | badDims
  | shortHeights
deriving DecidableEq, Repr

/-- The validation sequence of `loadXvbLayer`, reporting the first failing
check. -/
def xvbValidate (buf : XvbBuffer) : Except XvbError Unit :=
  if buf.byteLength ≤ 32 then .error .tooShort
  else if roundUp4 buf.byteLength ≠ buf.byteLength then .error .notMultipleOf4
  else if xvbWidth buf ≤ 0 ∨ xvbHeight buf ≤ 0 ∨
      16384 < xvbWidth buf ∨ 16384 < xvbHeight buf then .error .badDims
  else if (heightsLen buf : ℤ) < xvbWidth buf * xvbHeight buf then
    .error .shortHeights
  else .ok ()

/-- The decoded terrain mesh: grid dimensions, the normalized position of
the mesh root (`meshPos`), and the triangle index list.  (Vertex positions,
normals and UVs are filled from the same grid and are not needed by any
claim.) -/
structure XvbMesh where
  width : ℕ
  height : ℕ
  meshPos : Vec3
  indices : List (ℕ × ℕ × ℕ)
deriving Repr

/-- `loadXvbLayer` on an already-downloaded buffer: validation in source
order returning no mesh on failure, then the mesh root position
`normalizeCoordinate(centerX, centerY, 0)` (threading the origin state),
then the masked triangulation. -/
def loadXvb (s : OriginState) (buf : XvbBuffer) :
    OriginState × Option XvbMesh :=
  match xvbValidate buf with
  | .error _ => (s, none)
  | .ok _ =>
    let rangeX := xvbMaxX buf - xvbMinX buf
    let rangeY := xvbMaxY buf - xvbMinY buf
    let centerX := xvbMinX buf + rangeX * (1 / 2)
    let centerY := xvbMinY buf + rangeY * (1 / 2)
    let r := normalizeCoordinate s centerX centerY 0
    (r.1, some ⟨(xvbWidth buf).toNat, (xvbHeight buf).toNat, r.2,
      xvbIndices buf⟩)

lemma roundUp4_eq_iff (n : ℕ) : roundUp4 n = n ↔ n % 4 = 0 := by
  unfold roundUp4; omega

lemma loadXvb_of_error (s : OriginState) (buf : XvbBuffer) (e : XvbError)
    (h : xvbValidate buf = .error e) : loadXvb s buf = (s, none) := by
  simp [loadXvb, h]

/-- A 2×2 buffer whose four height samples all equal the declared minimum
elevation: every sample passes the decoder's `>=` test but none is
strictly above the minimum. -/
def bufEq : XvbBuffer :=
  ⟨48, fun i => if i ≤ 1 then 2 else 0, fun _ => 0⟩

/-- Counterexample to C3 as stated: in `bufEq` the quad at `(0, 0)` emits
triangle `(b, a, d) = (2, 0, 1)` although the elevation at `b = 2` is not
strictly above the declared minimum — the decoder masks with `>=`, not with
strict "above". -/
theorem xvb_masking_strict_above_counterexample :
    ((2, 0, 1) ∈ quadTris bufEq 0 0) ∧
    specStrictlyAbove bufEq 2 = false ∧
    ¬ (((2, 0, 1) ∈ quadTris bufEq 0 0) ↔
        (specStrictlyAbove bufEq 2 = true ∧ specStrictlyAbove bufEq 1 = true ∧
          specStrictlyAbove bufEq 0 = true)) := by
  refine ⟨by decide, by decide, ?_⟩
  intro h
  exact absurd (h.mp (by decide)).1 (by decide)

lemma emit_mem_bad (A B C D : Bool) (a b c d : ℕ) (hbc : b ≠ c) :
    ((b, a, d) ∈
        (if B && D then
          (if A then [(b, a, d)] else []) ++ (if C then [(c, b, d)] else [])
        else ([] : List (ℕ × ℕ × ℕ)))) ↔
      (B = true ∧ D = true ∧ A = true) := by
  cases A <;> cases B <;> cases C <;> cases D <;> simp [Prod.ext_iff, hbc]

lemma emit_mem_cbd (A B C D : Bool) (a b c d : ℕ) (hcb : c ≠ b) :
    ((c, b, d) ∈
        (if B && D then
          (if A then [(b, a, d)] else []) ++ (if C then [(c, b, d)] else [])
        else ([] : List (ℕ × ℕ × ℕ)))) ↔
      (B = true ∧ D = true ∧ C = true) := by
  cases A <;> cases B <;> cases C <;> cases D <;> simp [Prod.ext_iff, hcb]

lemma quadTris_mem_bad (buf : XvbBuffer) (ix iy : ℕ) :
    ((ix + (gridXn buf + 1) * (iy + 1), ix + (gridXn buf + 1) * iy,
        ix + 1 + (gridXn buf + 1) * iy) ∈ quadTris buf ix iy) ↔
      (aboveMin buf (ix + (gridXn buf + 1) * (iy + 1)) = true ∧
        aboveMin buf (ix + 1 + (gridXn buf + 1) * iy) = true ∧
        aboveMin buf (ix + (gridXn buf + 1) * iy) = true) :=
  emit_mem_bad _ _ _ _ _ _ _ _ (by omega)

lemma quadTris_mem_cbd (buf : XvbBuffer) (ix iy : ℕ) :
    ((ix + 1 + (gridXn buf + 1) * (iy + 1), ix + (gridXn buf + 1) * (iy + 1),
        ix + 1 + (gridXn buf + 1) * iy) ∈ quadTris buf ix iy) ↔
      (aboveMin buf (ix + (gridXn buf + 1) * (iy + 1)) = true ∧
        aboveMin buf (ix + 1 + (gridXn buf + 1) * iy) = true ∧
        aboveMin buf (ix + 1 + (gridXn buf + 1) * (iy + 1)) = true) :=
  emit_mem_cbd _ _ _ _ _ _ _ _ (by omega)

/-- C3 amended: for each unit quad with corners `a` (top-left), `b`
(bottom-left), `c` (bottom-right), `d` (top-right), triangle `(b, a, d)` is
emitted iff the elevations at `b`, `d` and `a` are all at or above (`>=`)
the declared minimum elevation, and triangle `(c, b, d)` is emitted iff the
elevations at `b`, `d` and `c` all are; consequently, a 3×3 grid whose
center sample is strictly below the minimum while the other 8 samples are
strictly above it decodes to a mesh with strictly fewer than 8 triangles,
none of which references the masked center vertex (index 4). -/
theorem xvb_masking_rule :
    (∀ (buf : XvbBuffer) (ix iy : ℕ),
      (((ix + (gridXn buf + 1) * (iy + 1), ix + (gridXn buf + 1) * iy,
          ix + 1 + (gridXn buf + 1) * iy) ∈ quadTris buf ix iy) ↔
        (aboveMin buf (ix + (gridXn buf + 1) * (iy + 1)) = true ∧
          aboveMin buf (ix + 1 + (gridXn buf + 1) * iy) = true ∧
          aboveMin buf (ix + (gridXn buf + 1) * iy) = true)) ∧
      (((ix + 1 + (gridXn buf + 1) * (iy + 1),
          ix + (gridXn buf + 1) * (iy + 1),
          ix + 1 + (gridXn buf + 1) * iy) ∈ quadTris buf ix iy) ↔
        (aboveMin buf (ix + (gridXn buf + 1) * (iy + 1)) = true ∧
          aboveMin buf (ix + 1 + (gridXn buf + 1) * iy) = true ∧
          aboveMin buf (ix + 1 + (gridXn buf + 1) * (iy + 1)) = true))) ∧
    (∀ (s : OriginState) (buf : XvbBuffer),
      buf.byteLength = 68 → xvbWidth buf = 3 → xvbHeight buf = 3 →
      buf.floatAt (8 + 4) < xvbMinZ buf →
      (∀ i, i < 9 → i ≠ 4 → xvbMinZ buf < buf.floatAt (8 + i)) →
      ∃ m, (loadXvb s buf).2 = some m ∧ m.indices.length < 8 ∧
        ∀ t ∈ m.indices, t.1 ≠ 4 ∧ t.2.1 ≠ 4 ∧ t.2.2 ≠ 4) := by
  refine ⟨fun buf ix iy => ⟨quadTris_mem_bad buf ix iy,
    quadTris_mem_cbd buf ix iy⟩, ?_⟩
  intro s buf hby hw hh hcenter hother
  have hlen : heightsLen buf = 9 := by simp [heightsLen, hby]
  have hsome : ∀ i : ℕ, i < 9 →
      heightAt buf i = some (buf.floatAt (8 + i)) := by
    intro i hi
    simp [heightAt, hlen, hi]
  have habove : ∀ i : ℕ, i < 9 → i ≠ 4 → aboveMin buf i = true := by
    intro i hi hne
    rw [aboveMin, hsome i hi]
    simpa using le_of_lt (hother i hi hne)
  have h4 : aboveMin buf 4 = false := by
    rw [aboveMin, hsome 4 (by norm_num)]
    simpa using not_le.mpr hcenter
  have hgx : gridXn buf = 2 := by simp [gridXn, hw]
  have hgy : gridYn buf = 2 := by simp [gridYn, hh]
  have e0 := habove 0 (by norm_num) (by norm_num)
  have e1 := habove 1 (by norm_num) (by norm_num)
  have e2 := habove 2 (by norm_num) (by norm_num)
  have e3 := habove 3 (by norm_num) (by norm_num)
  have e5 := habove 5 (by norm_num) (by norm_num)
  have e6 := habove 6 (by norm_num) (by norm_num)
  have e7 := habove 7 (by norm_num) (by norm_num)
  have e8 := habove 8 (by norm_num) (by norm_num)
  have key : xvbIndices buf = [(3, 0, 1), (8, 7, 5)] := by
    have hr2 : List.range 2 = [0, 1] := by decide
    simp only [xvbIndices, quadTris, hgx, hgy, hr2]
    norm_num [e0, e1, e2, e3, h4, e5, e6, e7, e8]
  have hval : xvbValidate buf = .ok () := by
    simp only [xvbValidate, hby, hw, hh, hlen]
    norm_num [roundUp4]
  have hload : (loadXvb s buf).2 =
      some ⟨(xvbWidth buf).toNat, (xvbHeight buf).toNat,
        (normalizeCoordinate s
          (xvbMinX buf + (xvbMaxX buf - xvbMinX buf) * (1 / 2))
          (xvbMinY buf + (xvbMaxY buf - xvbMinY buf) * (1 / 2)) 0).2,
        xvbIndices buf⟩ := by
    simp [loadXvb, hval]
  refine ⟨_, hload, ?_, ?_⟩
  · simp [key]
  · intro t ht
    rw [key] at ht
    simp only [List.mem_cons, List.mem_singleton] at ht
    rcases ht with rfl | rfl | h <;> simp_all

/-- A 3×3 buffer (byte length 68) with minimum elevation 0, center sample
-1 and the eight other samples 1. -/
def buf3 : XvbBuffer :=
  ⟨68, fun i => if i ≤ 1 then 3 else 0,
    fun i => if i = 12 then -1 else if 8 ≤ i then 1 else 0⟩

/-- Witness for C3 (amended) at the quad `(0, 0)` of `buf3` and at the 3×3
masked grid `buf3`. -/
theorem xvb_masking_rule_witness :
    (((0 + (gridXn buf3 + 1) * (0 + 1), 0 + (gridXn buf3 + 1) * 0,
        0 + 1 + (gridXn buf3 + 1) * 0) ∈ quadTris buf3 0 0) ↔
      (aboveMin buf3 (0 + (gridXn buf3 + 1) * (0 + 1)) = true ∧
        aboveMin buf3 (0 + 1 + (gridXn buf3 + 1) * 0) = true ∧
        aboveMin buf3 (0 + (gridXn buf3 + 1) * 0) = true)) ∧
    (∃ m, (loadXvb none buf3).2 = some m ∧ m.indices.length < 8 ∧
      ∀ t ∈ m.indices, t.1 ≠ 4 ∧ t.2.1 ≠ 4 ∧ t.2.2 ≠ 4) :=
  ⟨(xvb_masking_rule.1 buf3 0 0).1,
    xvb_masking_rule.2 none buf3 rfl rfl rfl (by norm_num [buf3, xvbMinZ])
      (by decide)⟩

lemma validate_tooShort (buf : XvbBuffer) (h : buf.byteLength ≤ 32) :
    xvbValidate buf = .error .tooShort := by
  simp [xvbValidate, h]

lemma validate_notMult4 (buf : XvbBuffer) (h1 : ¬ buf.byteLength ≤ 32)
    (h2 : buf.byteLength % 4 ≠ 0) :
    xvbValidate buf = .error .notMultipleOf4 := by
  have hr : roundUp4 buf.byteLength ≠ buf.byteLength := by
    rw [Ne, roundUp4_eq_iff]; exact h2
  simp only [xvbValidate]
  rw [if_neg h1, if_pos hr]

lemma validate_badDims (buf : XvbBuffer) (h1 : ¬ buf.byteLength ≤ 32)
    (h2 : buf.byteLength % 4 = 0)
    (h3 : xvbWidth buf ≤ 0 ∨ xvbHeight buf ≤ 0 ∨ 16384 < xvbWidth buf ∨
      16384 < xvbHeight buf) :
    xvbValidate buf = .error .badDims := by
  have hr : roundUp4 buf.byteLength = buf.byteLength :=
    (roundUp4_eq_iff _).mpr h2
  simp only [xvbValidate]
  rw [if_neg h1, if_neg (not_not_intro hr), if_pos h3]

lemma validate_shortHeights (buf : XvbBuffer) (h1 : ¬ buf.byteLength ≤ 32)
    (h2 : buf.byteLength % 4 = 0)
    (h3 : ¬ (xvbWidth buf ≤ 0 ∨ xvbHeight buf ≤ 0 ∨ 16384 < xvbWidth buf ∨
      16384 < xvbHeight buf))
    (h4 : (heightsLen buf : ℤ) < xvbWidth buf * xvbHeight buf) :
    xvbValidate buf = .error .shortHeights := by
  have hr : roundUp4 buf.byteLength = buf.byteLength :=
    (roundUp4_eq_iff _).mpr h2
  simp only [xvbValidate]
  rw [if_neg h1, if_neg (not_not_intro hr), if_neg h3, if_pos h4]

lemma validate_ok (buf : XvbBuffer) (h1 : ¬ buf.byteLength ≤ 32)
    (h2 : buf.byteLength % 4 = 0)
    (h3 : ¬ (xvbWidth buf ≤ 0 ∨ xvbHeight buf ≤ 0 ∨ 16384 < xvbWidth buf ∨
      16384 < xvbHeight buf))
    (h4 : ¬ ((heightsLen buf : ℤ) < xvbWidth buf * xvbHeight buf)) :
    xvbValidate buf = .ok () := by
  have hr : roundUp4 buf.byteLength = buf.byteLength :=
    (roundUp4_eq_iff _).mpr h2
  simp only [xvbValidate]
  rw [if_neg h1, if_neg (not_not_intro hr), if_neg h3, if_neg h4]

/-- C4: the decoder returns no mesh (leaving the origin state untouched
rather than aborting) whenever the byte length is ≤ 32, or the byte length
is not a multiple of 4, or the declared width or height is ≤ 0 or > 16384,
or the trailing height-sample region holds fewer than `width*height`
samples — and the checks fire in exactly that order (the reported
`XvbError` is the first failing check). -/
theorem xvb_validation_order :
    (∀ (s : OriginState) (buf : XvbBuffer), buf.byteLength ≤ 32 →
      loadXvb s buf = (s, none) ∧ xvbValidate buf = .error .tooShort) ∧
    (∀ (s : OriginState) (buf : XvbBuffer), 32 < buf.byteLength →
      buf.byteLength % 4 ≠ 0 →
      loadXvb s buf = (s, none) ∧
        xvbValidate buf = .error .notMultipleOf4) ∧
    (∀ (s : OriginState) (buf : XvbBuffer), 32 < buf.byteLength →
      buf.byteLength % 4 = 0 →
      (xvbWidth buf ≤ 0 ∨ xvbHeight buf ≤ 0 ∨ 16384 < xvbWidth buf ∨
        16384 < xvbHeight buf) →
      loadXvb s buf = (s, none) ∧ xvbValidate buf = .error .badDims) ∧
    (∀ (s : OriginState) (buf : XvbBuffer), 32 < buf.byteLength →
      buf.byteLength % 4 = 0 →
      0 < xvbWidth buf → xvbWidth buf ≤ 16384 →
      0 < xvbHeight buf → xvbHeight buf ≤ 16384 →
      (heightsLen buf : ℤ) < xvbWidth buf * xvbHeight buf →
      loadXvb s buf = (s, none) ∧
        xvbValidate buf = .error .shortHeights) := by
  refine ⟨fun s buf h => ?_, fun s buf h1 h2 => ?_, fun s buf h1 h2 h3 => ?_,
    fun s buf h1 h2 hw1 hw2 hh1 hh2 h4 => ?_⟩
  · have hv := validate_tooShort buf h
    exact ⟨loadXvb_of_error s buf _ hv, hv⟩
  · have hv := validate_notMult4 buf (not_le.mpr h1) h2
    exact ⟨loadXvb_of_error s buf _ hv, hv⟩
  · have hv := validate_badDims buf (not_le.mpr h1) h2 h3
    exact ⟨loadXvb_of_error s buf _ hv, hv⟩
  · have hv := validate_shortHeights buf (not_le.mpr h1) h2
      (by push_neg; exact ⟨hw1, hh1, hw2, hh2⟩) h4
    exact ⟨loadXvb_of_error s buf _ hv, hv⟩

/-- A 20-byte buffer (fails the ≤ 32 length check). -/
def buf20 : XvbBuffer := ⟨20, fun _ => 0, fun _ => 0⟩

/-- A 33-byte buffer (above the 32-byte header but not a multiple of 4). -/
def buf33 : XvbBuffer := ⟨33, fun _ => 0, fun _ => 0⟩

/-- A valid-length buffer declaring width 16385 (exceeds the 16384 bound).
-/
def bufWide : XvbBuffer :=
  ⟨40, fun i => if i = 0 then 16385 else 1, fun _ => 0⟩

/-- A valid-length 2×2 buffer with only 2 height samples (needs 4). -/
def bufShortH : XvbBuffer :=
  ⟨40, fun i => if i ≤ 1 then 2 else 0, fun _ => 0⟩

/-- Witness for C4 at the four concrete buffers, including the 33-byte
buffer and the width-16385 buffer named by the claim. -/
theorem xvb_validation_order_witness :
    (loadXvb none buf20 = (none, none) ∧
      xvbValidate buf20 = .error .tooShort) ∧
    (loadXvb none buf33 = (none, none) ∧
      xvbValidate buf33 = .error .notMultipleOf4) ∧
    (loadXvb none bufWide = (none, none) ∧
      xvbValidate bufWide = .error .badDims) ∧
    (loadXvb none bufShortH = (none, none) ∧
      xvbValidate bufShortH = .error .shortHeights) :=
  ⟨xvb_validation_order.1 none buf20 (by decide),
    xvb_validation_order.2.1 none buf33 (by decide) (by decide),
    xvb_validation_order.2.2.1 none bufWide (by decide) (by decide)
      (by decide),
    xvb_validation_order.2.2.2 none bufShortH (by decide) (by decide)
      (by decide) (by decide) (by decide) (by decide) (by decide)⟩

/-- A 2×2 buffer that is 4 bytes longer than `32 + 4*width*height`, with a
multiple-of-4 length and samples above the minimum elevation. -/
def bufLong : XvbBuffer :=
  ⟨52, fun i => if i ≤ 1 then 2 else 0, fun i => if 8 ≤ i then 1 else 0⟩

/-- Counterexample to C5 as stated: `bufLong` is strictly longer than
`32 + 4*width*height` with a multiple-of-4 byte length, yet the decoder
produces a mesh for it (the sample-count check only rejects buffers that
are too short). -/
theorem xvb_exact_length_counterexample :
    ((loadXvb none bufLong).2).isSome = true ∧
    bufLong.byteLength % 4 = 0 ∧
    32 + 4 * ((xvbWidth bufLong).toNat * (xvbHeight bufLong).toNat) <
      bufLong.byteLength := by
  decide

/-- C5 amended: a terrain buffer shorter than `32 + 4*width*height`, or
whose byte length is not a multiple of 4, is rejected (no mesh, origin
state untouched); but exact length is not required — any multiple-of-4
buffer of at least that length with valid dimensions is accepted. -/
theorem xvb_length_bounds :
    (∀ (s : OriginState) (buf : XvbBuffer),
      buf.byteLength <
        32 + 4 * ((xvbWidth buf).toNat * (xvbHeight buf).toNat) →
      loadXvb s buf = (s, none)) ∧
    (∀ (s : OriginState) (buf : XvbBuffer), buf.byteLength % 4 ≠ 0 →
      loadXvb s buf = (s, none)) ∧
    (∀ (s : OriginState) (buf : XvbBuffer),
      32 + 4 * ((xvbWidth buf).toNat * (xvbHeight buf).toNat) ≤
        buf.byteLength →
      buf.byteLength % 4 = 0 →
      0 < xvbWidth buf → xvbWidth buf ≤ 16384 →
      0 < xvbHeight buf → xvbHeight buf ≤ 16384 →
      ((loadXvb s buf).2).isSome = true) := by
  refine ⟨fun s buf hlt => ?_, fun s buf h4 => ?_,
    fun s buf hge h4 hw1 hw2 hh1 hh2 => ?_⟩
  · by_cases h1 : buf.byteLength ≤ 32
    · exact loadXvb_of_error s buf _ (validate_tooShort buf h1)
    by_cases h2 : buf.byteLength % 4 = 0
    · by_cases h3 : xvbWidth buf ≤ 0 ∨ xvbHeight buf ≤ 0 ∨
          16384 < xvbWidth buf ∨ 16384 < xvbHeight buf
      · exact loadXvb_of_error s buf _ (validate_badDims buf h1 h2 h3)
      · refine loadXvb_of_error s buf _
          (validate_shortHeights buf h1 h2 h3 ?_)
        push_neg at h3
        have hwpos : 0 < xvbWidth buf := h3.1
        have hhpos : 0 < xvbHeight buf := h3.2.1
        have hN : heightsLen buf <
            (xvbWidth buf).toNat * (xvbHeight buf).toNat := by
          unfold heightsLen
          omega
        have : ((xvbWidth buf).toNat * (xvbHeight buf).toNat : ℤ) =
            xvbWidth buf * xvbHeight buf := by
          push_cast [Int.toNat_of_nonneg hwpos.le,
            Int.toNat_of_nonneg hhpos.le]
          ring
        omega
    · exact loadXvb_of_error s buf _ (validate_notMult4 buf h1 h2)
  · by_cases h1 : buf.byteLength ≤ 32
    · exact loadXvb_of_error s buf _ (validate_tooShort buf h1)
    · exact loadXvb_of_error s buf _ (validate_notMult4 buf h1 h4)
  · have h3 : ¬ (xvbWidth buf ≤ 0 ∨ xvbHeight buf ≤ 0 ∨
        16384 < xvbWidth buf ∨ 16384 < xvbHeight buf) := by
      push_neg
      exact ⟨hw1, hh1, hw2, hh2⟩
    have h1 : ¬ buf.byteLength ≤ 32 := by
      have hwn : 0 < (xvbWidth buf).toNat := by omega
      have hhn : 0 < (xvbHeight buf).toNat := by omega
      have := Nat.mul_pos hwn hhn
      omega
    have hcast : ((xvbWidth buf).toNat * (xvbHeight buf).toNat : ℤ) =
        xvbWidth buf * xvbHeight buf := by
      push_cast [Int.toNat_of_nonneg hw1.le, Int.toNat_of_nonneg hh1.le]
      ring
    have h4' : ¬ ((heightsLen buf : ℤ) <
        xvbWidth buf * xvbHeight buf) := by
      have hN : (xvbWidth buf).toNat * (xvbHeight buf).toNat ≤
          heightsLen buf := by
        unfold heightsLen
        omega
      omega
    have hok := validate_ok buf h1 h4 h3 h4'
    simp [loadXvb, hok]

/-- Witness for C5 (amended): `buf20` is shorter than required and is
rejected; `buf33` has a non-multiple-of-4 length and is rejected; the
over-long `bufLong` is accepted. -/
theorem xvb_length_bounds_witness :
    loadXvb none buf20 = (none, none) ∧
    loadXvb none buf33 = (none, none) ∧
    ((loadXvb none bufLong).2).isSome = true :=
  ⟨xvb_length_bounds.1 none buf20 (by decide),
    xvb_length_bounds.2.1 none buf33 (by decide),
    xvb_length_bounds.2.2 none bufLong (by decide) (by decide) (by decide)
      (by decide) (by decide) (by decide)⟩

/-! ## Color fixing (FieldTwinLoader.fixColor) -/

/-- The default color `'#cccccc'`. -/
def defaultColor : String := "#cccccc"

/-- The channel swap `#RRGGBB -> #BBGGRR` on the character list of a
7-character color string: `'#' + substring(5,7) + substring(3,5) +
substring(1,3)`. -/
def fixColorChars (cs : List Char) : List Char :=
  '#' :: ((cs.drop 5).take 2 ++ (cs.drop 3).take 2 ++ (cs.drop 1).take 2)

/-- `FieldTwinLoader.fixColor(hex)`: on a missing (`undefined`) or empty
(falsy) input returns `'#cccccc'`; on a string that does not start with
`'#'` or whose length is not 7 returns it unchanged; otherwise swaps the
first and third two-character channels.  `hex.startsWith('#')` is the
first-character test on the character list. -/
def fixColor (hex : Option String) : String :=
  match hex with
  | none => defaultColor
  | some h =>
    if h = "" then defaultColor
    else if h.toList.head? = some '#' ∧ h.toList.length = 7 then
      String.mk (fixColorChars h.toList)
    else h

/-! ## Shapes (FieldTwinLoader.createShape) -/

/-- The geometry constructed for a shape: `BoxGeometry` or
`CylinderGeometry`. -/
inductive Geometry where
  | box (width height depth : ℚ)
  | cylinder (radiusTop radiusBottom height : ℚ)
deriving DecidableEq, Repr

/-- JavaScript `v || d` on an optional numeric field: the default replaces
a missing value and a (falsy) zero value. -/
def orDefault (v : Option ℚ) (d : ℚ) : ℚ :=
  (v.map (fun q => if q = 0 then d else q)).getD d

/-- A `shapes` record (the fields `createShape` reads). -/
structure FieldTwinShape where
  x : ℚ
  y : ℚ
  z : ℚ
  shapeType : String
  color : Option String
  boxWidth : Option ℚ
  boxHeight : Option ℚ
  boxDepth : Option ℚ
  cylinderHeight : Option ℚ
  cylinderRadiusTop : Option ℚ
  cylinderRadiusBottom : Option ℚ
  rotation : Option Vec3
  name : Option String
deriving DecidableEq, Repr

/-- The mesh produced for a shape: geometry, material color, normalized
position and Y rotation (stored in degrees; the renderer converts this
heading to radians). -/
structure ShapeMesh where
  geometry : Geometry
  color : String
  position : Vec3
  rotYDeg : ℚ
deriving DecidableEq, Repr

/-- `FieldTwinLoader.createShape`: drops shapes whose domain position has
both horizontal components below 0.01 in absolute value, builds the
geometry from the (zero-or-missing-defaulted) dimensions, and positions
the mesh through `normalizeCoordinate` (threading the origin state). -/
def createShape (s : OriginState) (shape : FieldTwinShape) :
    OriginState × Option ShapeMesh :=
  if |shape.x| < 1 / 100 ∧ |shape.y| < 1 / 100 then (s, none)
  else
    let colorVal := fixColor shape.color
    let width := orDefault shape.boxWidth 10
    let height := orDefault shape.boxHeight 10
    let depth := orDefault shape.boxDepth 10
    let geometry :=
      if shape.shapeType = "Rectangle" ∨ shape.shapeType = "Cube" then
        Geometry.box width height depth
      else if shape.shapeType = "Cylinder" ∨ shape.shapeType = "Tube" then
        Geometry.cylinder (orDefault shape.cylinderRadiusTop 5)
          (orDefault shape.cylinderRadiusBottom 5)
          (orDefault shape.cylinderHeight height)
      else Geometry.box 5 5 5
    let r := normalizeCoordinate s shape.x shape.y shape.z
    let rotY :=
      (shape.rotation.map (fun rot => if rot.z ≠ 0 then -rot.z else 0)).getD 0
    (r.1, some ⟨geometry, colorVal, r.2, rotY⟩)

/-! ## Wells and connections -/

/-- A `wells` record (the fields `createWell` reads). -/
structure FieldTwinWell where
  path : List (ℚ × ℚ × ℚ)
  radius : Option ℚ
  color : Option String
  name : Option String

/-- The tube mesh produced for a well: the normalized path points, the
tube radius and the material color. -/
structure WellMesh where
  points : List Vec3
  radius : ℚ
  color : String
deriving DecidableEq, Repr

/-- `FieldTwinLoader.createWell`: null on an empty path; otherwise each
path point is normalized with its depth negated
(`normalizeCoordinate(p.x, p.y, -p.z)`), and fewer than two points yield
null.  (`fixColor` never returns an empty string, so the JS
`|| '#ff0000'` fallback is unreachable.) -/
def createWell (s : OriginState) (w : FieldTwinWell) :
    OriginState × Option WellMesh :=
  if w.path.length = 0 then (s, none)
  else
    let r := runNormalize s (w.path.map (fun p => (p.1, p.2.1, -p.2.2)))
    if r.2.length < 2 then (r.1, none)
    else (r.1, some ⟨r.2, w.radius.getD 1, fixColor w.color⟩)

/-- A `connections` record (the fields `createConnection` reads);
`connectionTypeColor` is `conn.connectionType?.color` (`none` when either
level is missing). -/
structure FieldTwinConnection where
  sampled : List (ℚ × ℚ × ℚ)
  color : Option String
  connectionTypeColor : Option String
  name : Option String

/-- The polyline produced for a connection. -/
structure ConnMesh where
  points : List Vec3
  color : String
deriving DecidableEq, Repr

/-- `FieldTwinLoader.createConnection`: null on an empty sample list; each
point is normalized with a 0.1 elevation offset
(`normalizeCoordinate(p.x, p.y, p.z + 0.1)`); fewer than two points yield
null; the fixed connection-type color is used unless it equals the default
placeholder, in which case the fixed direct color is used. -/
def createConnection (s : OriginState) (c : FieldTwinConnection) :
    OriginState × Option ConnMesh :=
  if c.sampled.length = 0 then (s, none)
  else
    let r := runNormalize s
      (c.sampled.map (fun p => (p.1, p.2.1, p.2.2 + 1 / 10)))
    if r.2.length < 2 then (r.1, none)
    else
      let typeColor := fixColor c.connectionTypeColor
      let colorVal :=
        if typeColor ≠ defaultColor then typeColor else fixColor c.color
      (r.1, some ⟨r.2, colorVal⟩)

/-! ## Staged assets (FieldTwinLoader.createStagedAsset) -/

/-- The `initialState` / `initialSTate` record of a staged asset. -/
structure InitAssetState where
  x : ℚ
  y : ℚ
  z : ℚ
  rotation : Option ℚ
deriving DecidableEq, Repr

/-- `asset.rotation`: a number (heading), an object with optional
components, or absent. -/
inductive AssetRotation where
  | num (v : ℚ)
  | obj (x y z : Option ℚ)
  | absent
deriving DecidableEq, Repr

/-- A `stagedAssets` record (the fields `createStagedAsset` reads);
`modelUrl` is `asset.asset?.model3durl || asset.asset?.model3dUrl`
(`none` when missing or empty). -/
structure StagedAssetRec where
  initialState : Option InitAssetState
  initialSTate : Option InitAssetState
  modelUrl : Option String
  x : Option ℚ
  y : Option ℚ
  z : Option ℚ
  rotation : AssetRotation
  scale : Option Vec3
  name : Option String

/-- The position/heading state resolved for a staged asset. -/
structure ResolvedState where
  x : ℚ
  y : ℚ
  z : ℚ
  heading : ℚ
deriving DecidableEq, Repr

/-- The state resolution of `createStagedAsset`: `initialState ||
initialSTate` when present (heading `st.rotation ?? 0`), else the
top-level `x/y/z || 0` with heading from a numeric `rotation` or
`rotation?.z || 0`. -/
def resolvedState (a : StagedAssetRec) : ResolvedState :=
  ((a.initialState.orElse (fun _ => a.initialSTate)).map
    (fun st => ResolvedState.mk st.x st.y st.z (st.rotation.getD 0))).getD
    ⟨a.x.getD 0, a.y.getD 0, a.z.getD 0,
      match a.rotation with
      | .num v => v
      | .obj _ _ z => z.getD 0
      | .absent => 0⟩

/-- The placement handed to the model loader for a staged asset: the model
URL, normalized position, rotations (degrees) and scale. -/
structure AssetPlacement where
  url : String
  position : Vec3
  rotYDeg : ℚ
  rotXDeg : ℚ
  rotZDeg : ℚ
  scale : Vec3
  name : Option String
deriving DecidableEq, Repr

/-- `FieldTwinLoader.createStagedAsset`: null without a model URL; resolves
the position state; drops artifacts whose resolved position has both
horizontal components below 0.01 in absolute value; otherwise normalizes
the position, maps the clockwise heading to `-heading`, applies optional
tilt/roll from an object-valued `rotation`, and the `scale` (default
(1,1,1)). -/
def createStagedAsset (s : OriginState) (a : StagedAssetRec) :
    OriginState × Option AssetPlacement :=
  match a.modelUrl with
  | none => (s, none)
  | some url =>
    let st := resolvedState a
    if |st.x| < 1 / 100 ∧ |st.y| < 1 / 100 then (s, none)
    else
      let r := normalizeCoordinate s st.x st.y st.z
      let tilt := match a.rotation with
        | .obj tx _ _ => tx.getD 0
        | _ => 0
      let roll := match a.rotation with
        | .obj _ ty _ => ty.getD 0
        | _ => 0
      (r.1, some ⟨url, r.2, -st.heading, tilt, roll,
        a.scale.getD ⟨1, 1, 1⟩, a.name⟩)

lemma runNormalize_length (s : OriginState) (l : List (ℚ × ℚ × ℚ)) :
    (runNormalize s l).2.length = l.length := by
  induction l generalizing s with
  | nil => simp [runNormalize]
  | cons p rest ih => simp [runNormalize, ih]

/-- C8: a shape whose domain position has both horizontal components below
0.01 in absolute value is dropped, any other shape produces a mesh, and a
staged asset whose resolved position has both horizontal components below
0.01 in absolute value is likewise dropped. -/
theorem origin_artifact_drop :
    (∀ (s : OriginState) (sh : FieldTwinShape),
      |sh.x| < 1 / 100 → |sh.y| < 1 / 100 → (createShape s sh).2 = none) ∧
    (∀ (s : OriginState) (sh : FieldTwinShape),
      ¬ (|sh.x| < 1 / 100 ∧ |sh.y| < 1 / 100) →
      ((createShape s sh).2).isSome = true) ∧
    (∀ (s : OriginState) (a : StagedAssetRec),
      |(resolvedState a).x| < 1 / 100 → |(resolvedState a).y| < 1 / 100 →
      (createStagedAsset s a).2 = none) := by
  refine ⟨fun s sh hx hy => ?_, fun s sh h => ?_, fun s a hx hy => ?_⟩
  · simp only [createShape]
    rw [if_pos ⟨hx, hy⟩]
  · simp only [createShape]
    rw [if_neg h]
    rfl
  · cases hurl : a.modelUrl with
    | none => simp [createStagedAsset, hurl]
    | some url =>
      simp only [createStagedAsset, hurl]
      rw [if_pos ⟨hx, hy⟩]

/-- A shape at domain position (0.005, 0.005, 10). -/
def shapeNear : FieldTwinShape :=
  ⟨1 / 200, 1 / 200, 10, "Cube", none, none, none, none, none, none, none,
    none, none⟩

/-- A shape at domain position (5000, 5000, 10). -/
def shapeFar : FieldTwinShape :=
  ⟨5000, 5000, 10, "Cube", none, none, none, none, none, none, none, none,
    none⟩

/-- A staged asset whose initial state is at (0.005, 0.005, 10). -/
def assetNear : StagedAssetRec :=
  ⟨some ⟨1 / 200, 1 / 200, 10, none⟩, none, some "m.glb", none, none, none,
    .absent, none, none⟩

/-- Witness for C8: the shape at (0.005, 0.005, 10) is dropped, the shape
at (5000, 5000, 10) is retained, and the staged asset at (0.005, 0.005,
10) is dropped. -/
theorem origin_artifact_drop_witness :
    (createShape none shapeNear).2 = none ∧
    ((createShape none shapeFar).2).isSome = true ∧
    (createStagedAsset none assetNear).2 = none :=
  ⟨origin_artifact_drop.1 none shapeNear (by norm_num [shapeNear, abs_lt])
      (by norm_num [shapeNear, abs_lt]),
    origin_artifact_drop.2.1 none shapeFar (by norm_num [shapeFar, abs_lt]),
    origin_artifact_drop.2.2 none assetNear
      (by norm_num [assetNear, resolvedState, Option.orElse, abs_lt])
      (by norm_num [assetNear, resolvedState, Option.orElse, abs_lt])⟩

/-- A shape away from the origin whose box dimensions are all zero. -/
def shapeZeroDims : FieldTwinShape :=
  ⟨5, 5, 0, "Cube", none, some 0, some 0, some 0, none, none, none, none,
    none⟩

/-- Counterexample to C9 as stated: a primitive shape with zero-valued
dimensions is not omitted — `createShape` replaces the falsy dimensions
with the default 10 and still produces a mesh. -/
theorem zero_dim_shape_counterexample :
    shapeZeroDims.boxWidth = some 0 ∧ shapeZeroDims.boxHeight = some 0 ∧
    shapeZeroDims.boxDepth = some 0 ∧
    (createShape none shapeZeroDims).2 =
      some ⟨Geometry.box 10 10 10, defaultColor, Vec3.zero, 0⟩ := by
  refine ⟨rfl, rfl, rfl, ?_⟩
  have hn := normalizeCoordinate_none_big 5 5 0 (by norm_num)
  simp only [shapeZeroDims, createShape]
  rw [if_neg (by norm_num [abs_lt])]
  simp [hn, orDefault, fixColor, defaultColor]

/-- C9 amended: a well or connection whose point list is empty or has
fewer than two points produces no entity, while a primitive shape with
zero-valued dimensions is still produced, its zero dimensions replaced by
the default size 10. -/
theorem degenerate_geometry_rule :
    (∀ (s : OriginState) (w : FieldTwinWell), w.path.length < 2 →
      (createWell s w).2 = none) ∧
    (∀ (s : OriginState) (c : FieldTwinConnection), c.sampled.length < 2 →
      (createConnection s c).2 = none) ∧
    (∀ (s : OriginState) (sh : FieldTwinShape),
      ¬ (|sh.x| < 1 / 100 ∧ |sh.y| < 1 / 100) →
      sh.shapeType = "Cube" → sh.boxWidth = some 0 → sh.boxHeight = some 0 →
      sh.boxDepth = some 0 →
      (createShape s sh).2 =
        some ⟨Geometry.box 10 10 10, fixColor sh.color,
          (normalizeCoordinate s sh.x sh.y sh.z).2,
          (sh.rotation.map
            (fun rot => if rot.z ≠ 0 then -rot.z else 0)).getD 0⟩) := by
  refine ⟨fun s w hlen => ?_, fun s c hlen => ?_,
    fun s sh hdrop hty hw hh hd => ?_⟩
  · by_cases h0 : w.path.length = 0
    · simp [createWell, h0]
    · simp [createWell, h0, runNormalize_length, hlen]
  · by_cases h0 : c.sampled.length = 0
    · simp [createConnection, h0]
    · simp [createConnection, h0, runNormalize_length, hlen]
  · simp only [createShape, hty, hw, hh, hd]
    rw [if_neg hdrop]
    simp [orDefault]

/-- A well with an empty path. -/
def emptyWell : FieldTwinWell := ⟨[], none, none, none⟩

/-- A connection with a single sampled point. -/
def shortConn : FieldTwinConnection :=
  ⟨[((1 : ℚ), (2 : ℚ), (3 : ℚ))], none, none, none⟩

/-- Witness for C9 (amended) at an empty well, a one-point connection and
the zero-dimension shape. -/
theorem degenerate_geometry_rule_witness :
    (createWell none emptyWell).2 = none ∧
    (createConnection none shortConn).2 = none ∧
    (createShape none shapeZeroDims).2 =
      some ⟨Geometry.box 10 10 10, fixColor shapeZeroDims.color,
        (normalizeCoordinate none shapeZeroDims.x shapeZeroDims.y
          shapeZeroDims.z).2,
        (shapeZeroDims.rotation.map
          (fun rot => if rot.z ≠ 0 then -rot.z else 0)).getD 0⟩ :=
  ⟨degenerate_geometry_rule.1 none emptyWell (by decide),
    degenerate_geometry_rule.2.1 none shortConn (by decide),
    degenerate_geometry_rule.2.2 none shapeZeroDims
      (by norm_num [shapeZeroDims, abs_lt]) rfl rfl rfl rfl⟩

/-- Counterexample to C10 as stated: the empty string is present (not
absent) and not of the `#RRGGBB` form, yet `fixColor` does not return it
unchanged — the JS falsy test maps it to the default `'#cccccc'`. -/
theorem fixcolor_empty_counterexample :
    fixColor (some "") = defaultColor ∧
    "" ≠ defaultColor ∧
    ¬ (("" : String).toList.head? = some '#' ∧
        ("" : String).toList.length = 7) ∧
    fixColor (some "") ≠ "" := by
  decide

/-- C10 amended: `fixColor` swaps the red and blue channels of any
7-character string starting with `'#'`, applying it twice restores the
original (involution); a missing color yields `'#cccccc'`, the empty
string yields `'#cccccc'`, and any other string not of that form is
returned unchanged. -/
theorem fixcolor_swap_involution :
    (∀ c1 c2 c3 c4 c5 c6 : Char,
      fixColor (some (String.mk ['#', c1, c2, c3, c4, c5, c6])) =
        String.mk ['#', c5, c6, c3, c4, c1, c2] ∧
      fixColor (some (fixColor
          (some (String.mk ['#', c1, c2, c3, c4, c5, c6])))) =
        String.mk ['#', c1, c2, c3, c4, c5, c6]) ∧
    fixColor none = defaultColor ∧
    fixColor (some "") = defaultColor ∧
    (∀ h : String, h ≠ "" →
      ¬ (h.toList.head? = some '#' ∧ h.toList.length = 7) →
      fixColor (some h) = h) := by
  refine ⟨fun c1 c2 c3 c4 c5 c6 => ⟨rfl, rfl⟩, rfl, rfl,
    fun h h0 h2 => ?_⟩
  simp only [fixColor]
  rw [if_neg h0, if_neg h2]

/-- Witness for C10 (amended): a non-empty string not of the `#RRGGBB`
form is returned unchanged. -/
theorem fixcolor_swap_involution_witness :
    ("ab" : String) ≠ "" ∧
    ¬ (("ab" : String).toList.head? = some '#' ∧
        ("ab" : String).toList.length = 7) ∧
    fixColor (some "ab") = "ab" :=
  ⟨by decide, by decide,
    fixcolor_swap_involution.2.2.2 "ab" (by decide) (by decide)⟩

/-! ## Model cache (src/loaders/GLTFLoader.ts)

`GLTFLoader` keeps `cache: Map<string, Promise<Group>>`.  `load(url, ...)`
inserts the pending `loadInternal(url)` into the map synchronously when the
url is missing (so a second call — including one made before the first
resolves, since insertion precedes any await on the single JS thread —
finds it and triggers no second fetch), awaits the shared canonical model,
deep-clones it and applies the per-call transform to the clone only.  The
environment's fetch/parse is the function argument `fetch`; the returned
`ℕ` counts the `loadInternal` invocations of the call. -/

/-- A loaded model: an identifier for its (shared, never-mutated) mesh
content, plus the mutable transform of this instance. -/
structure GModel where
  meshId : ℕ
  position : Vec3
  scale : Vec3
  rotationDeg : Vec3
deriving DecidableEq, Repr

/-- The transform application of `GLTFLoader.load` to a freshly cloned
model: each of position/scale/rotation is copied only if provided. -/
def applyTransform (m : GModel) (p sc r : Option Vec3) : GModel :=
  GModel.mk m.meshId (p.getD m.position) (sc.getD m.scale)
    (r.getD m.rotationDeg)

/-- `GLTFLoader.load(url, position, scale, rotation)`: cache miss stores
the canonical model and counts one fetch; the returned model is a clone of
the canonical with the transform applied. -/
def gltfLoad (fetch : String → GModel) (cache : List (String × GModel))
    (url : String) (p sc r : Option Vec3) :
    List (String × GModel) × GModel × ℕ :=
  match cache.lookup url with
  | some orig => (cache, applyTransform orig p sc r, 0)
  | none =>
    let orig := fetch url
    ((url, orig) :: cache, applyTransform orig p sc r, 1)

/-- C7: two loads of the same URL (the second finding the entry the first
inserted, as a concurrent second call would) trigger exactly one fetch;
the cache holds the untransformed canonical model after both; each call
returns a clone carrying the canonical mesh and its own transform; and the
second call's result is independent of whatever transform was applied to
the first instance. -/
theorem model_cache_single_fetch
    (fetch : String → GModel) (cache : List (String × GModel)) (url : String)
    (p1 s1 r1 p2 s2 r2 : Vec3)
    (h : cache.lookup url = none) :
    (gltfLoad fetch cache url (some p1) (some s1) (some r1)).2.2 +
      (gltfLoad fetch
        (gltfLoad fetch cache url (some p1) (some s1) (some r1)).1 url
        (some p2) (some s2) (some r2)).2.2 = 1 ∧
    (gltfLoad fetch cache url (some p1) (some s1) (some r1)).1 =
      (url, fetch url) :: cache ∧
    (gltfLoad fetch
        (gltfLoad fetch cache url (some p1) (some s1) (some r1)).1 url
        (some p2) (some s2) (some r2)).1 =
      (url, fetch url) :: cache ∧
    (gltfLoad fetch cache url (some p1) (some s1) (some r1)).2.1 =
      GModel.mk (fetch url).meshId p1 s1 r1 ∧
    (gltfLoad fetch
        (gltfLoad fetch cache url (some p1) (some s1) (some r1)).1 url
        (some p2) (some s2) (some r2)).2.1 =
      GModel.mk (fetch url).meshId p2 s2 r2 ∧
    (∀ p1' s1' r1' : Vec3,
      (gltfLoad fetch
          (gltfLoad fetch cache url (some p1') (some s1') (some r1')).1 url
          (some p2) (some s2) (some r2)).2.1 =
        GModel.mk (fetch url).meshId p2 s2 r2) := by
  have hfirst : gltfLoad fetch cache url (some p1) (some s1) (some r1) =
      ((url, fetch url) :: cache,
        GModel.mk (fetch url).meshId p1 s1 r1, 1) := by
    simp [gltfLoad, h, applyTransform]
  have hsecond : ∀ pa sa ra : Vec3,
      gltfLoad fetch ((url, fetch url) :: cache) url (some pa) (some sa)
          (some ra) =
        ((url, fetch url) :: cache,
          GModel.mk (fetch url).meshId pa sa ra, 0) := by
    intro pa sa ra
    simp [gltfLoad, List.lookup, applyTransform]
  have hfirst' : ∀ pa sa ra : Vec3,
      (gltfLoad fetch cache url (some pa) (some sa) (some ra)).1 =
        (url, fetch url) :: cache := by
    intro pa sa ra
    simp [gltfLoad, h, applyTransform]
  refine ⟨?_, ?_, ?_, ?_, ?_, ?_⟩
  · rw [hfirst]
    simp [hsecond]
  · rw [hfirst]
  · rw [hfirst]
    simp [hsecond]
  · rw [hfirst]
  · rw [hfirst]
    simp [hsecond]
  · intro p1' s1' r1'
    rw [hfirst' p1' s1' r1']
    simp [hsecond]

/-- A constant model-fetching environment for the witness. -/
def exFetch : String → GModel :=
  fun _ => GModel.mk 7 Vec3.zero ⟨1, 1, 1⟩ Vec3.zero

/-- Witness for C7 at a concrete fetch environment, empty cache and
concrete transforms. -/
theorem model_cache_single_fetch_witness :
    (gltfLoad exFetch [] "a.glb" (some ⟨1, 2, 3⟩) (some ⟨1, 1, 1⟩)
        (some Vec3.zero)).2.2 +
      (gltfLoad exFetch
        (gltfLoad exFetch [] "a.glb" (some ⟨1, 2, 3⟩) (some ⟨1, 1, 1⟩)
          (some Vec3.zero)).1 "a.glb"
        (some ⟨4, 5, 6⟩) (some ⟨2, 2, 2⟩) (some Vec3.zero)).2.2 = 1 ∧
    (gltfLoad exFetch [] "a.glb" (some ⟨1, 2, 3⟩) (some ⟨1, 1, 1⟩)
        (some Vec3.zero)).2.1 =
      GModel.mk (exFetch "a.glb").meshId ⟨1, 2, 3⟩ ⟨1, 1, 1⟩ Vec3.zero ∧
    (gltfLoad exFetch
        (gltfLoad exFetch [] "a.glb" (some ⟨1, 2, 3⟩) (some ⟨1, 1, 1⟩)
          (some Vec3.zero)).1 "a.glb"
        (some ⟨4, 5, 6⟩) (some ⟨2, 2, 2⟩) (some Vec3.zero)).2.1 =
      GModel.mk (exFetch "a.glb").meshId ⟨4, 5, 6⟩ ⟨2, 2, 2⟩ Vec3.zero := by
  have h := model_cache_single_fetch exFetch [] "a.glb"
    ⟨1, 2, 3⟩ ⟨1, 1, 1⟩ Vec3.zero ⟨4, 5, 6⟩ ⟨2, 2, 2⟩ Vec3.zero rfl
  exact ⟨h.1, h.2.2.2.1, h.2.2.2.2.1⟩

/-! ## Parse progress accounting (FieldTwinLoader.parse / updateProgress)

`parse` counts `totalAsyncTasks = layerCount + assetCount`, and each
asynchronous task (terrain layer or staged asset) calls `updateProgress`
exactly once on every path — skipped, succeeded or failed (rejections are
caught at the task boundary, so a task is a total function).  The reported
percent depends only on the completion count, so any completion
interleaving produces the same report sequence; the model runs the tasks
in a fixed order, threading the shared origin state. -/

/-- The percent computed by `updateProgress` after a completion:
`Math.min(10 + (completedTasks / totalAsyncTasks) * 90, 100)`. -/
def updateProgressPercent (total completed : ℚ) : ℚ :=
  min (10 + completed / total * 90) 100

/-- A render entity produced by an asynchronous task: a decoded terrain
mesh, a placeholder group for a non-XVB layer, or a placed asset. -/
inductive Entity where
  | terrain (m : XvbMesh)
  | placeholder (layerName : Option String)
  | placedAsset (a : AssetPlacement)

/-- JavaScript truthiness of an optional url string. -/
def urlTruthy (u : Option String) : Bool :=
  (u.map (fun s => s != "")).getD false

/-- A `layers` record as seen by the layer task: visibility flag, url,
`isXVB` flag, and the outcome of the network fetch of the binary blob. -/
structure LayerRec where
  visible : Option Bool
  url : Option String
  isXVB : Bool
  fetch : Except Unit XvbBuffer
  name : Option String

/-- One layer task of `parse`: a `visible === false` layer is skipped; an
XVB layer with a url is fetched and decoded, a fetch rejection caught at
the task boundary yields nothing; any other layer yields a placeholder
group.  Every path counts one `updateProgress` call (the third
component). -/
def runLayerTask (s : OriginState) (l : LayerRec) :
    OriginState × List Entity × ℕ :=
  if l.visible = some false then (s, [], 1)
  else if urlTruthy l.url && l.isXVB then
    match l.fetch with
    | Except.ok buf =>
      let r := loadXvb s buf
      (r.1, (r.2.map (fun m => [Entity.terrain m])).getD [], 1)
    | Except.error _ => (s, [], 1)
  else (s, [Entity.placeholder l.name], 1)

/-- A staged-asset task record: visibility flag, the asset record and
whether the model fetch inside `createStagedAsset` resolves. -/
structure AssetTaskRec where
  visible : Option Bool
  record : StagedAssetRec
  fetchOk : Bool

/-- One staged-asset task of `parse`: skipped when `visible === false` or
without a model url; otherwise `createStagedAsset` runs (its origin-state
effects happen before the model fetch), and a fetch rejection caught at
the task boundary yields nothing.  Every path counts one `updateProgress`
call. -/
def runAssetTask (s : OriginState) (t : AssetTaskRec) :
    OriginState × List Entity × ℕ :=
  if t.visible = some false then (s, [], 1)
  else if (t.record.modelUrl).isSome then
    let c := createStagedAsset s t.record
    if t.fetchOk then
      (c.1, (c.2.map (fun p => [Entity.placedAsset p])).getD [], 1)
    else (c.1, [], 1)
  else (s, [], 1)

/-- The mutable state of one `parse` run: the origin singleton, the
collected entities, the `completedTasks` counter and the reported
percents in order. -/
structure ParseAcc where
  origin : OriginState
  entities : List Entity
  completed : ℕ
  reports : List ℚ

/-- Runs a list of tasks in order, accumulating entities and reporting
progress after each task (`completedTasks++` then
`updateProgressPercent`). -/
def runTasksAcc {α : Type} (task : OriginState → α → OriginState × List Entity × ℕ)
    (n : ℕ) : ParseAcc → List α → ParseAcc
  | acc, [] => acc
  | acc, t :: rest =>
    let r := task acc.origin t
    runTasksAcc task n
      ⟨r.1, acc.entities ++ r.2.1, acc.completed + r.2.2,
        acc.reports ++
          [updateProgressPercent (n : ℚ)
            ((acc.completed + r.2.2 : ℕ) : ℚ)]⟩ rest

/-- The origin-state/entity effect of a task list, without the progress
accounting. -/
def tasksEnts {α : Type} (task : OriginState → α → OriginState × List Entity × ℕ)
    (s : OriginState) : List α → OriginState × List Entity
  | [] => (s, [])
  | t :: rest =>
    let r := task s t
    let t2 := tasksEnts task r.1 rest
    (t2.1, r.2.1 ++ t2.2)

/-- The asynchronous phase of `parse`: `totalAsyncTasks` is the combined
count of layer and asset records, the layer tasks run, then the asset
tasks, accumulating progress reports. -/
def parseAsync (layers : List LayerRec) (assets : List AssetTaskRec)
    (s : OriginState) : ParseAcc :=
  let n := layers.length + assets.length
  runTasksAcc runAssetTask n
    (runTasksAcc runLayerTask n ⟨s, [], 0, []⟩ layers) assets

lemma runLayerTask_one (s : OriginState) (l : LayerRec) :
    (runLayerTask s l).2.2 = 1 := by
  unfold runLayerTask
  split
  · rfl
  split
  · split <;> rfl
  · rfl

lemma runAssetTask_one (s : OriginState) (t : AssetTaskRec) :
    (runAssetTask s t).2.2 = 1 := by
  unfold runAssetTask
  split
  · rfl
  split
  · split <;> rfl
  · rfl

lemma runTasksAcc_spec {α : Type}
    (task : OriginState → α → OriginState × List Entity × ℕ)
    (hone : ∀ s a, (task s a).2.2 = 1) (n : ℕ) (ts : List α)
    (acc : ParseAcc) :
    runTasksAcc task n acc ts =
      ⟨(tasksEnts task acc.origin ts).1,
        acc.entities ++ (tasksEnts task acc.origin ts).2,
        acc.completed + ts.length,
        acc.reports ++ (List.range ts.length).map
          (fun k : ℕ => updateProgressPercent (n : ℚ)
            ((acc.completed + k + 1 : ℕ) : ℚ))⟩ := by
  induction ts generalizing acc with
  | nil => simp [runTasksAcc, tasksEnts]
  | cons t rest ih =>
    have h1 : (task acc.origin t).2.2 = 1 := hone acc.origin t
    simp only [runTasksAcc, tasksEnts, List.length_cons]
    rw [ih]
    simp only [h1, List.append_assoc, List.singleton_append,
      ParseAcc.mk.injEq]
    refine ⟨trivial, by simp, by omega, ?_⟩
    rw [List.range_succ_eq_map, List.map_cons, List.map_map]
    simp only [Nat.add_zero, Function.comp]
    congr 2
    have hfe : (fun k : ℕ => updateProgressPercent (n : ℚ)
          ((acc.completed + 1 + k + 1 : ℕ) : ℚ)) =
        ((fun k : ℕ => updateProgressPercent (n : ℚ)
          ((acc.completed + k + 1 : ℕ) : ℚ)) ∘ Nat.succ) := by
      funext k
      simp only [Function.comp_apply]
      congr 1
      norm_cast
      omega
    rw [hfe]

lemma runLayerTask_fail (s : OriginState) (l : LayerRec)
    (hfetch : l.fetch = .error ()) (hurl : urlTruthy l.url = true)
    (hx : l.isXVB = true) : runLayerTask s l = (s, [], 1) := by
  by_cases hv : l.visible = some false
  · simp [runLayerTask, hv]
  · simp [runLayerTask, hv, hurl, hx, hfetch]

lemma tasksEnts_append {α : Type}
    (task : OriginState → α → OriginState × List Entity × ℕ)
    (s : OriginState) (l1 l2 : List α) :
    tasksEnts task s (l1 ++ l2) =
      ((tasksEnts task (tasksEnts task s l1).1 l2).1,
        (tasksEnts task s l1).2 ++
          (tasksEnts task (tasksEnts task s l1).1 l2).2) := by
  induction l1 generalizing s with
  | nil => simp [tasksEnts]
  | cons t rest ih =>
    simp [tasksEnts, ih]

lemma list_map_ext {α β : Type _} (f g : α → β) (l : List α)
    (h : ∀ a, f a = g a) : l.map f = l.map g := by
  rw [show f = g from funext h]

lemma parseAsync_reports (layers : List LayerRec)
    (assets : List AssetTaskRec) (s : OriginState) :
    (parseAsync layers assets s).reports =
      (List.range (layers.length + assets.length)).map
        (fun k : ℕ => updateProgressPercent
          ((layers.length + assets.length : ℕ) : ℚ) ((k + 1 : ℕ) : ℚ)) := by
  unfold parseAsync
  dsimp only
  rw [runTasksAcc_spec _ runLayerTask_one, runTasksAcc_spec _ runAssetTask_one]
  simp only [List.nil_append]
  rw [List.range_add, List.map_append, List.map_map]
  congr 1
  · refine list_map_ext _ _ _ (fun k => ?_)
    congr 1
    norm_cast
    omega
  · refine list_map_ext _ _ _ (fun k => ?_)
    simp only [Function.comp_apply]
    congr 1
    norm_cast
    omega

lemma pct_mono (n j k : ℕ) (hn : 0 < n) (hjk : j ≤ k) :
    updateProgressPercent (n : ℚ) (j : ℚ) ≤
      updateProgressPercent (n : ℚ) (k : ℚ) := by
  unfold updateProgressPercent
  have hnq : (0 : ℚ) < n := by exact_mod_cast hn
  have hdiv : (j : ℚ) / n ≤ (k : ℚ) / n :=
    (div_le_div_iff_of_pos_right hnq).mpr (by exact_mod_cast hjk)
  exact min_le_min (by linarith) le_rfl

lemma pct_total (n : ℕ) (hn : 0 < n) :
    updateProgressPercent (n : ℚ) (n : ℚ) = 100 := by
  unfold updateProgressPercent
  have hnq : (n : ℚ) ≠ 0 := by exact_mod_cast hn.ne'
  rw [div_self hnq]
  norm_num

/-- C6: each asynchronous task (layer or staged asset) advances the
completed-task counter exactly once whether it is skipped, succeeds or
fails; the report sequence of a run is exactly the percents at completions
1..n for n = layer count + asset count; the reported percent is
monotonically non-decreasing in the completion count; after all n tasks
settle the reported progress is exactly 100; and a layer whose fetch
rejects is caught at its task boundary — the run still produces exactly
the entities of the same run without that layer (same final origin
state), with no rejection escaping (every task is a total function). -/
theorem progress_accounting :
    (∀ (s : OriginState) (l : LayerRec), (runLayerTask s l).2.2 = 1) ∧
    (∀ (s : OriginState) (t : AssetTaskRec), (runAssetTask s t).2.2 = 1) ∧
    (∀ (layers : List LayerRec) (assets : List AssetTaskRec)
        (s : OriginState),
      (parseAsync layers assets s).reports =
        (List.range (layers.length + assets.length)).map
          (fun k : ℕ => updateProgressPercent
            ((layers.length + assets.length : ℕ) : ℚ) ((k + 1 : ℕ) : ℚ))) ∧
    (∀ n j k : ℕ, 0 < n → j ≤ k →
      updateProgressPercent (n : ℚ) (j : ℚ) ≤
        updateProgressPercent (n : ℚ) (k : ℚ)) ∧
    (∀ n : ℕ, 0 < n → updateProgressPercent (n : ℚ) (n : ℚ) = 100) ∧
    (∀ (layers : List LayerRec) (assets : List AssetTaskRec)
        (s : OriginState),
      0 < layers.length + assets.length →
      (parseAsync layers assets s).reports.getLast? = some 100) ∧
    (∀ (pre post : List LayerRec) (l : LayerRec)
        (assets : List AssetTaskRec) (s : OriginState),
      l.fetch = .error () → urlTruthy l.url = true → l.isXVB = true →
      (parseAsync (pre ++ l :: post) assets s).entities =
        (parseAsync (pre ++ post) assets s).entities ∧
      (parseAsync (pre ++ l :: post) assets s).origin =
        (parseAsync (pre ++ post) assets s).origin) := by
  refine ⟨runLayerTask_one, runAssetTask_one, parseAsync_reports, pct_mono,
    pct_total, ?_, ?_⟩
  · intro layers assets s hn
    rw [parseAsync_reports]
    obtain ⟨m, hm⟩ : ∃ m, layers.length + assets.length = m + 1 :=
      ⟨layers.length + assets.length - 1, by omega⟩
    rw [hm, List.range_succ, List.map_append]
    simp only [List.map_cons, List.map_nil]
    rw [List.getLast?_concat]
    have : updateProgressPercent ((m + 1 : ℕ) : ℚ) ((m + 1 : ℕ) : ℚ) =
        100 := pct_total (m + 1) (by omega)
    rw [this]
  · intro pre post l assets s hf hu hx
    have hdrop : ∀ s1, tasksEnts runLayerTask s1 (l :: post) =
        tasksEnts runLayerTask s1 post := by
      intro s1
      simp only [tasksEnts]
      rw [runLayerTask_fail s1 l hf hu hx]
      simp
    have hkey : tasksEnts runLayerTask s (pre ++ l :: post) =
        tasksEnts runLayerTask s (pre ++ post) := by
      rw [tasksEnts_append, tasksEnts_append, hdrop]
    constructor <;>
      simp [parseAsync, runTasksAcc_spec _ runLayerTask_one,
        runTasksAcc_spec _ runAssetTask_one, hkey]

/-- A layer whose XVB fetch succeeds with the over-long 2×2 buffer. -/
def exLayerOk : LayerRec := ⟨none, some "t1", true, .ok bufLong, some "L1"⟩

/-- A layer whose fetch rejects. -/
def exLayerFail : LayerRec :=
  ⟨none, some "t2", true, .error (), some "L2"⟩

/-- A layer whose XVB fetch succeeds with the masked 3×3 buffer. -/
def exLayerOk2 : LayerRec := ⟨none, some "t3", true, .ok buf3, some "L3"⟩

/-- A staged asset away from the origin. -/
def assetFar : StagedAssetRec :=
  ⟨some ⟨6000, 6000, 0, none⟩, none, some "m.glb", none, none, none,
    .absent, none, none⟩

/-- A staged-asset task that resolves. -/
def exAssetTask : AssetTaskRec := ⟨none, assetFar, true⟩

/-- Witness for C6 on the claim's scenario — 3 terrain layers (one of
whose fetches rejects) and 2 staged assets: every task counts one
progress call, progress is monotone and ends at exactly 100, and the
entities equal those of the run without the failing layer. -/
theorem progress_accounting_witness :
    (runLayerTask none exLayerFail).2.2 = 1 ∧
    (runAssetTask none exAssetTask).2.2 = 1 ∧
    updateProgressPercent ((5 : ℕ) : ℚ) ((2 : ℕ) : ℚ) ≤
      updateProgressPercent ((5 : ℕ) : ℚ) ((3 : ℕ) : ℚ) ∧
    updateProgressPercent ((5 : ℕ) : ℚ) ((5 : ℕ) : ℚ) = 100 ∧
    (parseAsync [exLayerOk, exLayerFail, exLayerOk2]
        [exAssetTask, exAssetTask] none).reports.getLast? = some 100 ∧
    (parseAsync [exLayerOk, exLayerFail, exLayerOk2]
        [exAssetTask, exAssetTask] none).entities =
      (parseAsync [exLayerOk, exLayerOk2]
        [exAssetTask, exAssetTask] none).entities :=
  ⟨progress_accounting.1 none exLayerFail,
    progress_accounting.2.1 none exAssetTask,
    progress_accounting.2.2.2.1 5 2 3 (by norm_num) (by norm_num),
    progress_accounting.2.2.2.2.1 5 (by norm_num),
    progress_accounting.2.2.2.2.2.1 [exLayerOk, exLayerFail, exLayerOk2]
      [exAssetTask, exAssetTask] none (by simp),
    (progress_accounting.2.2.2.2.2.2 [exLayerOk] [exLayerOk2] exLayerFail
      [exAssetTask, exAssetTask] none rfl rfl rfl).1⟩

end GeoViewer
